import Mathlib

/-
Shallow embedding of the resource translation core of hnsd
(src/src/resource.c together with src/include/hsk-resource.h).

Byte strings are modelled as `List Nat` (one octet per entry), decoder
cursors as an offset into the base message (the base is needed for DNS name
decompression), machine integers as `Nat` with an explicit `% 2 ^ 32` where
32-bit overflow matters, and fallible C functions as `Option`.

Functions from collaborating translation units that are not under src/
(bio.c, dns.c, base32.c, dnssec.c, utils.c and the internal resource.h) are
modelled from the spec; each such definition carries a doc comment starting
with `Modelled from the spec:`.
-/

/-! ### Record type tags (src/include/hsk-resource.h lines 4-24) -/

def HSK_INET4 : Nat := 1

def HSK_INET6 : Nat := 2

def HSK_ONION : Nat := 3

def HSK_ONIONNG : Nat := 4

def HSK_NAME : Nat := 5

def HSK_GLUE : Nat := 6

def HSK_CANONICAL : Nat := 7

def HSK_DELEGATE : Nat := 8

def HSK_NS : Nat := 9

def HSK_SERVICE : Nat := 10

def HSK_URL : Nat := 11

def HSK_EMAIL : Nat := 12

def HSK_TEXT : Nat := 13

def HSK_LOCATION : Nat := 14

def HSK_MAGNET : Nat := 15

def HSK_DS : Nat := 16

def HSK_TLS : Nat := 17

def HSK_SSH : Nat := 18

def HSK_PGP : Nat := 19

def HSK_ADDR : Nat := 20

/-- Modelled from the spec: resource.c uses HSK_GLUE4/HSK_GLUE6/HSK_SYNTH4/
HSK_SYNTH6 from its internal resource.h, which is not under src/, and the
spec's tag table marks these values as an open question.  We assign fresh
values distinct from every tag of the public header; no claim in this
development depends on the numeric choice (concrete decode inputs use only
the header-backed tags HSK_DS = 16 and HSK_TEXT = 13, which the spec's tag
table also fixes). -/
def HSK_GLUE4 : Nat := 21

/-- Modelled from the spec: see HSK_GLUE4. -/
def HSK_GLUE6 : Nat := 22

/-- Modelled from the spec: see HSK_GLUE4. -/
def HSK_SYNTH4 : Nat := 23

/-- Modelled from the spec: see HSK_GLUE4. -/
def HSK_SYNTH6 : Nat := 24

/-- Modelled from the spec: HSK_DEFAULT_TTL is a compile-time constant from a
header that is not under src/ ("a fixed TTL (a compile-time constant)").  No
claim depends on its numeric value. -/
def HSK_DEFAULT_TTL : Nat := 21600

/-! ### DNS constants (dns.h is not under src/; IANA wire values) -/

/-- Modelled from the spec: standard DNS RRtype and flag values used by
resource.c via dns.h, which is not under src/. -/
def HSK_DNS_A : Nat := 1

def HSK_DNS_NS : Nat := 2

def HSK_DNS_CNAME : Nat := 5

def HSK_DNS_SOA : Nat := 6

def HSK_DNS_MX : Nat := 15

def HSK_DNS_TXT : Nat := 16

def HSK_DNS_RP : Nat := 17

def HSK_DNS_AAAA : Nat := 28

def HSK_DNS_LOC : Nat := 29

def HSK_DNS_SRV : Nat := 33

def HSK_DNS_DNAME : Nat := 39

def HSK_DNS_DS : Nat := 43

def HSK_DNS_SSHFP : Nat := 44

def HSK_DNS_RRSIG : Nat := 46

def HSK_DNS_NSEC : Nat := 47

def HSK_DNS_DNSKEY : Nat := 48

def HSK_DNS_ANY : Nat := 255

def HSK_DNS_URI : Nat := 256

def HSK_DNS_AA : Nat := 0x400

def HSK_DNS_SERVFAIL : Nat := 2

def HSK_DNS_NXDOMAIN : Nat := 3

def HSK_DNS_NOTIMP : Nat := 4

/-! ### Data model (src/include/hsk-resource.h) -/

/-- hsk_target_t (hsk-resource.h lines 35-41): the `type` field holds one of
HSK_NAME/HSK_GLUE/HSK_INET4/HSK_INET6/HSK_ONION/HSK_ONIONNG. -/
structure hsk_target where
  type : Nat
  name : String
  inet4 : List Nat
  inet6 : List Nat
  onion : List Nat
deriving DecidableEq

def hsk_target_zero : hsk_target :=
  { type := 0, name := "", inet4 := List.replicate 4 0,
    inet6 := List.replicate 16 0, onion := List.replicate 33 0 }

/-- The record structs of hsk-resource.h as a tagged variant.  The `ns`
constructor carries both the stored FQDN (written by hsk_ns_record_read)
and the target that hsk_resource_to_nsip reads through the
hsk_ns_record_t cast. -/
inductive hsk_record where
  | inet4 (target : hsk_target)
  | inet6 (target : hsk_target)
  | canonical (target : hsk_target)
  | delegate (target : hsk_target)
  | ns (name : String) (target : hsk_target)
  | glue4 (name : String) (inet4 : List Nat)
  | glue6 (name : String) (inet6 : List Nat)
  | synth4 (inet4 : List Nat)
  | synth6 (inet6 : List Nat)
  | service (service : String) (protocol : String) (priority : Nat)
      (weight : Nat) (target : hsk_target) (port : Nat)
  | text (text : String)
  | email (text : String)
  | url (text : String)
  | magnet (nid : String) (nin : List Nat)
  | addr (currency : String) (address : String) (ctype : Nat) (hash : List Nat)
  | ds (key_tag : Nat) (algorithm : Nat) (digest_type : Nat) (digest : List Nat)
  | location (version : Nat) (size : Nat) (horiz_pre : Nat) (vert_pre : Nat)
      (latitude : Nat) (longitude : Nat) (altitude : Nat)
  | ssh (algorithm : Nat) (key_type : Nat) (fingerprint : List Nat)
deriving DecidableEq

/-- The numeric type tag stored in each record's leading `type` field. -/
def hsk_record.tag : hsk_record → Nat
  | .inet4 _ => HSK_INET4
  | .inet6 _ => HSK_INET6
  | .canonical _ => HSK_CANONICAL
  | .delegate _ => HSK_DELEGATE
  | .ns _ _ => HSK_NS
  | .glue4 _ _ => HSK_GLUE4
  | .glue6 _ _ => HSK_GLUE6
  | .synth4 _ => HSK_SYNTH4
  | .synth6 _ => HSK_SYNTH6
  | .service _ _ _ _ _ _ => HSK_SERVICE
  | .text _ => HSK_TEXT
  | .email _ => HSK_EMAIL
  | .url _ => HSK_URL
  | .magnet _ _ => HSK_MAGNET
  | .addr _ _ _ _ => HSK_ADDR
  | .ds _ _ _ _ => HSK_DS
  | .location _ _ _ _ _ _ _ => HSK_LOCATION
  | .ssh _ _ _ => HSK_SSH

/-- hsk_resource_t (hsk-resource.h lines 151-156): version, ttl and the
record list (the C struct stores the records in 255 fixed slots with a
separate record_count; the list models slots 0 .. record_count-1). -/
structure hsk_resource where
  version : Nat
  ttl : Nat
  records : List hsk_record
deriving DecidableEq

/-! ### DNS name reading (dns.c is not under src/) -/

def label_string (bytes : List Nat) : String :=
  String.mk (bytes.map Char.ofNat)

def hsk_dns_name_of_labels (labels : List String) : String :=
  if labels.isEmpty then "." else String.join (labels.map (fun l => l ++ "."))

/-- Modelled from the spec (4.1): collect the labels of a DNS compressed name
stored in `msg` at offset `off`, following at most `hops` compression
pointers (top two bits `11`), rejecting length bytes in 64..191 and
truncated labels.  `fuel` only bounds the recursion; callers pass enough
fuel that it never runs out on terminating inputs. -/
def hsk_dns_labels_at (msg : List Nat) : Nat → Nat → Nat → Option (List (List Nat))
  | _, _, 0 => none
  | off, hops, fuel + 1 =>
    match msg.get? off with
    | none => none
    | some len =>
      if len = 0 then some []
      else if 192 ≤ len then
        match msg.get? (off + 1) with
        | none => none
        | some lo =>
          if hops = 0 then none
          else hsk_dns_labels_at msg ((len - 192) * 256 + lo) (hops - 1) fuel
      else if 64 ≤ len then none
      else if msg.length < off + 1 + len then none
      else
        match hsk_dns_labels_at msg (off + 1 + len) hops fuel with
        | none => none
        | some rest => some (((msg.drop (off + 1)).take len) :: rest)

/-- Modelled from the spec (4.1): the number of bytes a compressed-name read
consumes from the record cursor: the labels up to and including either the
terminating zero byte or the first two-byte pointer. -/
def hsk_dns_name_consumed (msg : List Nat) : Nat → Nat → Option Nat
  | _, 0 => none
  | off, fuel + 1 =>
    match msg.get? off with
    | none => none
    | some len =>
      if len = 0 then some 1
      else if 192 ≤ len then
        if off + 1 < msg.length then some 2 else none
      else if 64 ≤ len then none
      else if msg.length < off + 1 + len then none
      else
        match hsk_dns_name_consumed msg (off + 1 + len) fuel with
        | none => none
        | some n => some (1 + len + n)

/-- Modelled from the spec (4.1): hsk_dns_name_read from dns.c, which is not
under src/.  Reads a compressed name against the decompression context
(`msg` is the base message, per hsk_resource_decode's dmp), returning the
presentation-form FQDN and the number of cursor bytes consumed; per the
spec, primitives never advance the cursor on failure. -/
def hsk_dns_name_read (msg : List Nat) (off : Nat) : Option (String × Nat) :=
  match hsk_dns_name_consumed msg off (msg.length + 1),
        hsk_dns_labels_at msg off 128 ((msg.length + 2) * 129) with
  | some n, some labels =>
    some (hsk_dns_name_of_labels (labels.map label_string), n)
  | _, _ => none

/-! ### Record readers (src/resource.c lines 61-202)

Each reader returns (success flag, record, bytes consumed).  The record
component is the zero-initialized record (hsk_record_init) with exactly the
fields the C reader wrote before returning; the consumed count matches the
C cursor position on both success and failure paths (composite readers
leave the cursor advanced past the primitives that individually
succeeded). -/

/-- src/resource.c hsk_ds_record_read (lines 61-85): on the `size > 64` and
truncated-digest failure paths the cursor has already advanced 5 bytes. -/
def hsk_ds_record_read (msg : List Nat) (off : Nat) : Bool × hsk_record × Nat :=
  if msg.length < off + 5 then (false, .ds 0 0 0 [], 0)
  else
    let key_tag := (msg.getD off 0) * 256 + msg.getD (off + 1) 0
    let algorithm := msg.getD (off + 2) 0
    let digest_type := msg.getD (off + 3) 0
    let size := msg.getD (off + 4) 0
    if 64 < size then (false, .ds key_tag algorithm digest_type [], 5)
    else if msg.length < off + 5 + size then
      (false, .ds key_tag algorithm digest_type [], 5)
    else
      (true, .ds key_tag algorithm digest_type ((msg.drop (off + 5)).take size),
       5 + size)

/-- src/resource.c hsk_ns_record_read (lines 87-95). -/
def hsk_ns_record_read (msg : List Nat) (off : Nat) : Bool × hsk_record × Nat :=
  match hsk_dns_name_read msg off with
  | none => (false, .ns "" hsk_target_zero, 0)
  | some (name, n) => (true, .ns name hsk_target_zero, n)

/-- src/resource.c hsk_glue4_record_read (lines 97-108). -/
def hsk_glue4_record_read (msg : List Nat) (off : Nat) : Bool × hsk_record × Nat :=
  match hsk_dns_name_read msg off with
  | none => (false, .glue4 "" (List.replicate 4 0), 0)
  | some (name, n) =>
    if msg.length < off + n + 4 then (false, .glue4 name (List.replicate 4 0), n)
    else (true, .glue4 name ((msg.drop (off + n)).take 4), n + 4)

/-- src/resource.c hsk_glue6_record_read (lines 110-121). -/
def hsk_glue6_record_read (msg : List Nat) (off : Nat) : Bool × hsk_record × Nat :=
  match hsk_dns_name_read msg off with
  | none => (false, .glue6 "" (List.replicate 16 0), 0)
  | some (name, n) =>
    if msg.length < off + n + 16 then (false, .glue6 name (List.replicate 16 0), n)
    else (true, .glue6 name ((msg.drop (off + n)).take 16), n + 16)

/-- src/resource.c hsk_synth4_record_read (lines 123-130). -/
def hsk_synth4_record_read (msg : List Nat) (off : Nat) : Bool × hsk_record × Nat :=
  if msg.length < off + 4 then (false, .synth4 (List.replicate 4 0), 0)
  else (true, .synth4 ((msg.drop off).take 4), 4)

/-- src/resource.c hsk_synth6_record_read (lines 132-139). -/
def hsk_synth6_record_read (msg : List Nat) (off : Nat) : Bool × hsk_record × Nat :=
  if msg.length < off + 16 then (false, .synth6 (List.replicate 16 0), 0)
  else (true, .synth6 ((msg.drop off).take 16), 16)

/-- The printable-byte check of hsk_resource_str_read (lines 160-177): DEL
forbidden, control bytes below 0x20 forbidden except TAB, LF, CR. -/
def hsk_str_byte_ok (ch : Nat) : Bool :=
  ch ≠ 0x7f && (0x20 ≤ ch || ch = 0x09 || ch = 0x0a || ch = 0x0d)

/-- src/resource.c hsk_resource_str_read (lines 141-193): a size byte, then
`size` bytes which must all pass hsk_str_byte_ok and whose count must not
exceed `limit`.  After slice_bytes succeeds the cursor has advanced
1 + size bytes, also on the validation failure paths. -/
def hsk_resource_str_read (msg : List Nat) (off : Nat) (limit : Nat) :
    Bool × String × Nat :=
  match msg.get? off with
  | none => (false, "", 0)
  | some size =>
    if msg.length < off + 1 + size then (false, "", 1)
    else
      let chunk := (msg.drop (off + 1)).take size
      if ¬ chunk.all hsk_str_byte_ok then (false, "", 1 + size)
      else if limit < size then (false, "", 1 + size)
      else (true, label_string chunk, 1 + size)

/-- src/resource.c hsk_txt_record_read (lines 195-202). -/
def hsk_txt_record_read (msg : List Nat) (off : Nat) : Bool × hsk_record × Nat :=
  match hsk_resource_str_read msg off 255 with
  | (ok, s, n) => (ok, .text s, n)

/-- src/resource.c hsk_record_read (lines 364-425).  Faithful to the source:
the per-type reader's boolean is stored in `result` but never tested — for
every known record type the function stores the (possibly partially
filled) record and returns true even when the reader failed; only an
unknown record type (hsk_record_alloc returning NULL) fails.  The `.2`
projection below discards the reader's success flag exactly as the C code
discards `result`. -/
def hsk_record_read (msg : List Nat) (off : Nat) (type : Nat) :
    Option (hsk_record × Nat) :=
  if type = HSK_DS then some (hsk_ds_record_read msg off).2
  else if type = HSK_NS then some (hsk_ns_record_read msg off).2
  else if type = HSK_GLUE4 then some (hsk_glue4_record_read msg off).2
  else if type = HSK_GLUE6 then some (hsk_glue6_record_read msg off).2
  else if type = HSK_SYNTH4 then some (hsk_synth4_record_read msg off).2
  else if type = HSK_SYNTH6 then some (hsk_synth6_record_read msg off).2
  else if type = HSK_TEXT then some (hsk_txt_record_read msg off).2
  else none

/-- The record loop of hsk_resource_decode (lines 465-477): while bytes
remain, read a type byte and dispatch.  The C loop terminates because the
offset strictly increases; `fuel` bounds the recursion and callers pass
`msg.length + 1`, which the strictly increasing offset can never
exhaust. -/
def hsk_resource_decode_loop (msg : List Nat) : Nat → Nat → Option (List hsk_record)
  | _, 0 => none
  | off, fuel + 1 =>
    if off < msg.length then
      match hsk_record_read msg (off + 1) (msg.getD off 0) with
      | none => none
      | some (rec, n) =>
        match hsk_resource_decode_loop msg (off + 1 + n) fuel with
        | none => none
        | some recs => some (rec :: recs)
    else some []

/-- src/resource.c hsk_resource_decode (lines 427-488): version byte must be
0, then records until the input is exhausted. -/
def hsk_resource_decode (data : List Nat) : Option hsk_resource :=
  match data with
  | [] => none
  | version :: _ =>
    if version = 0 then
      match hsk_resource_decode_loop data 1 (data.length + 1) with
      | none => none
      | some recs =>
        some { version := version, ttl := HSK_DEFAULT_TTL, records := recs }
    else none

/-- src/resource.c hsk_resource_get (lines 490-499): first record with the
given type tag. -/
def hsk_resource_get (res : hsk_resource) (type : Nat) : Option hsk_record :=
  res.records.find? (fun rec => rec.tag = type)

/-- src/resource.c hsk_resource_has (lines 501-504). -/
def hsk_resource_has (res : hsk_resource) (type : Nat) : Bool :=
  (hsk_resource_get res type).isSome

/-- Whether a record's type is NS-like.  The C test (resource.c line 511) is
the range HSK_NS <= type <= HSK_SYNTH6 of the internal resource.h, which is
not under src/; the spec fixes the meaning as the set
type in {NS, GLUE4, GLUE6, SYNTH4, SYNTH6}. -/
def hsk_record_is_ns_like : hsk_record → Bool
  | .ns _ _ => true
  | .glue4 _ _ => true
  | .glue6 _ _ => true
  | .synth4 _ => true
  | .synth6 _ => true
  | _ => false

/-- src/resource.c hsk_resource_has_ns (lines 506-515). -/
def hsk_resource_has_ns (res : hsk_resource) : Bool :=
  res.records.any hsk_record_is_ns_like

/-! ### Concrete decode inputs for the C1 and C2 evaluations -/

/-- Version byte 0, then the type byte HSK_DS = 16 with no record body: the
DS reader fails (fewer than 5 bytes remain). -/
def c1_input : List Nat := [0, 16]

/-- Version byte 0, then 256 empty TEXT records (type byte HSK_TEXT = 13
followed by the string size byte 0), 513 bytes in total. -/
def c2_input : List Nat := 0 :: (List.replicate 256 [13, 0]).flatten

/-! ### ASCII and hex helpers (utils.c is not under src/) -/

/-- Modelled from the spec: ASCII lower-casing as used by hsk_to_lower and
strcasecmp from utils.c, which is not under src/. -/
def ascii_lower (c : Char) : Char :=
  if 'A' ≤ c ∧ c ≤ 'Z' then Char.ofNat (c.toNat + 32) else c

/-- Modelled from the spec: hsk_to_lower. -/
def hsk_to_lower (s : String) : String :=
  String.mk (s.toList.map ascii_lower)

/-- Modelled from the spec: strcasecmp(a, b) == 0. -/
def strcasecmp_eq (a b : String) : Bool :=
  hsk_to_lower a == hsk_to_lower b

def hex_char (v : Nat) : Char :=
  ("0123456789abcdef".toList).getD (v % 16) '0'

/-- Modelled from the spec: hsk_hex_encode from utils.c (lower-case hex). -/
def hsk_hex_encode (bs : List Nat) : String :=
  String.mk ((bs.map (fun b => [hex_char (b / 16), hex_char b])).flatten)

/-! ### Base32hex codec (base32.c is not under src/) -/

/-- Modelled from the spec (4.3): the base32hex alphabet, lower case. -/
def base32_hex_chars : List Char := "0123456789abcdefghijklmnopqrstuv".toList

def b32_digit (v : Nat) : Char := base32_hex_chars.getD (v % 32) '0'

/-- `k` base-32 digits of `v`, most significant first. -/
def b32_digits (v : Nat) : Nat → List Char
  | 0 => []
  | k + 1 => b32_digits (v / 32) k ++ [b32_digit v]

/-- Modelled from the spec (4.3): hsk_base32_encode_hex from base32.c
(unpadded, lower case).  A full 5-byte group yields 8 characters; a
trailing group of n bytes yields its 8n bits, zero-padded at the low end
to a multiple of 5, as ceil(8n/5) characters. -/
def b32_encode_groups : List Nat → List Char
  | b0 :: b1 :: b2 :: b3 :: b4 :: rest =>
    b32_digits ((((b0 * 256 + b1) * 256 + b2) * 256 + b3) * 256 + b4) 8 ++
      b32_encode_groups rest
  | [b0, b1, b2, b3] => b32_digits ((((b0 * 256 + b1) * 256 + b2) * 256 + b3) * 8) 7
  | [b0, b1, b2] => b32_digits (((b0 * 256 + b1) * 256 + b2) * 2) 5
  | [b0, b1] => b32_digits ((b0 * 256 + b1) * 16) 4
  | [b0] => b32_digits (b0 * 4) 2
  | [] => []

def hsk_base32_encode_hex (bs : List Nat) : String :=
  String.mk (b32_encode_groups bs)

/-- Modelled from the spec: base32hex digit value. -/
def b32_char_val (c : Char) : Option Nat :=
  base32_hex_chars.indexOf? (ascii_lower c)

/-- Modelled from the spec: regroup base-32 digit values into bytes; digit
counts of 1, 3 or 6 mod 8 cannot arise from an encoding and are
rejected. -/
def b32_decode_groups : List Nat → Option (List Nat)
  | v0 :: v1 :: v2 :: v3 :: v4 :: v5 :: v6 :: v7 :: rest => do
    let tail ← b32_decode_groups rest
    let v := ((((((v0 * 32 + v1) * 32 + v2) * 32 + v3) * 32 + v4) * 32 + v5) * 32
      + v6) * 32 + v7
    pure ([v / 2 ^ 32 % 256, v / 2 ^ 24 % 256, v / 2 ^ 16 % 256,
      v / 2 ^ 8 % 256, v % 256] ++ tail)
  | [v0, v1, v2, v3, v4, v5, v6] =>
    let v := (((((v0 * 32 + v1) * 32 + v2) * 32 + v3) * 32 + v4) * 32 + v5) * 32 + v6
    some [v / 2 ^ 27 % 256, v / 2 ^ 19 % 256, v / 2 ^ 11 % 256, v / 2 ^ 3 % 256]
  | [v0, v1, v2, v3, v4] =>
    let v := (((v0 * 32 + v1) * 32 + v2) * 32 + v3) * 32 + v4
    some [v / 2 ^ 17 % 256, v / 2 ^ 9 % 256, v / 2 % 256]
  | [v0, v1, v2, v3] =>
    let v := ((v0 * 32 + v1) * 32 + v2) * 32 + v3
    some [v / 2 ^ 12 % 256, v / 2 ^ 4 % 256]
  | [v0, v1] => some [(v0 * 32 + v1) / 4 % 256]
  | [] => some []
  | _ => none

/-- Modelled from the spec: hsk_base32_decode_hex from base32.c. -/
def hsk_base32_decode_hex (s : String) : Option (List Nat) := do
  let vals ← s.toList.mapM b32_char_val
  b32_decode_groups vals

/-! ### Pointer codec (src/resource.c lines 1839-1976) -/

/-- One step of the longest-zero-run scan of ip_size (resource.c lines
1848-1858); the state is (out, last, start, len). -/
def ip_size_step (ipb : List Nat) (st : Bool × Nat × Nat × Nat) (i : Nat) :
    Bool × Nat × Nat × Nat :=
  match st with
  | (out, last, start, len) =>
    let ch := ipb.getD i 0
    if out = decide (ch = 0) then
      let p := if out = false ∧ len < i - last then (last, i - last) else (start, len)
      (!out, i, p.1, p.2)
    else st

/-- src/resource.c ip_size (lines 1839-1879): the longest zero run of the
16-byte address (earliest run wins ties); a run covering the whole
address is reported with length 0. -/
def ip_size (ipb : List Nat) : Nat × Nat :=
  match (List.range 16).foldl (ip_size_step ipb) (true, 0, 0, 0) with
  | (out, last, start, len) =>
    let p := if out = false ∧ len < 16 - last then (last, 16 - last) else (start, len)
    if p.2 = 16 then (p.1, 0) else p

/-- src/resource.c ip_write (lines 1881-1891): header byte
(start << 4) | len, then the bytes before and after the zero run. -/
def ip_write (ipb : List Nat) : List Nat :=
  match ip_size ipb with
  | (start, len) =>
    (start * 16 + len) ::
      (ipb.take start ++ ((ipb.drop (start + len)).take (16 - (start + len))))

/-- src/resource.c ip_read (lines 1893-1918).  When the decoded payload is
shorter than 1 + start + left bytes the C code reads stack bytes past the
decoded data; the model pads with zeros (the concrete inputs below are
always long enough). -/
def ip_read (data : List Nat) : Option (List Nat) :=
  match data with
  | [] => none
  | field :: rest =>
    let start := field / 16
    let len := field % 16
    if 16 < start + len then none
    else
      let left := 16 - (start + len)
      let padded := rest ++ List.replicate 16 0
      some (padded.take start ++ List.replicate len 0 ++
        ((padded.drop start).take left))

/-- The value of `sizeof(ip)` in ip_to_b32, where `ip` is a
`const uint8_t *` parameter: the size of the pointer on the 64-bit
targets. -/
def sizeof_uint8_ptr : Nat := 8

/-- src/resource.c ip_to_b32 (lines 1920-1943).  Faithful to the source:
`family` is `sizeof(ip)` — the pointer size, never 4 — so the
IPv4-mapping branch is dead code and the function always copies 16 bytes
from `ip`; for a 4-byte IPv4 buffer the C code thus reads 12 bytes past
the buffer, and callers of the model supply those bytes explicitly. -/
def ip_to_b32 (ipb : List Nat) : String :=
  let family := sizeof_uint8_ptr
  let mapped :=
    if family = 4 then List.replicate 10 0 ++ [255, 255] ++ ipb.take 4
    else ipb.take 16
  hsk_base32_encode_hex (ip_write mapped)

/-- Modelled from the spec (4.3 and the design note on the ip_to_b32 family
check): the intended pointer encoding with the address family supplied
from context; an IPv4 address is first mapped to ::ffff:a.b.c.d. -/
def ip_to_b32_spec (family : Nat) (ipb : List Nat) : String :=
  let mapped :=
    if family = 4 then List.replicate 10 0 ++ [255, 255] ++ ipb.take 4
    else ipb.take 16
  hsk_base32_encode_hex (ip_write mapped)

def hsk_ipv4_mapped12 : List Nat :=
  [0, 0, 0, 0, 0, 0, 0, 0, 0, 0, 255, 255]

/-- src/resource.c b32_to_ip (lines 1945-1976): base32hex-decode (1..17
bytes), ip_read, then report (address bytes, family): when the leading 12
bytes equal the IPv4-mapped prefix the last 4 bytes are copied to the
front and the family is A, else the family is AAAA. -/
def b32_to_ip (str : String) : Option (List Nat × Nat) :=
  match hsk_base32_decode_hex str with
  | none => none
  | some data =>
    if data.length = 0 ∨ 17 < data.length then none
    else
      match ip_read data with
      | none => none
      | some ip =>
        if ip.take 12 = hsk_ipv4_mapped12 then
          some ((ip.drop 12).take 4 ++ ip.drop 4, HSK_DNS_A)
        else some (ip, HSK_DNS_AAAA)

/-! ### Name helpers (dns.c is not under src/) -/

/-- Split a character list at the dots (structural recursion, so concrete
instances evaluate inside the kernel). -/
def split_labels_aux : List Char → List Char → List (List Char)
  | [], acc => [acc.reverse]
  | c :: rest, acc =>
    if c = '.' then acc.reverse :: split_labels_aux rest []
    else split_labels_aux rest (c :: acc)

/-- The labels of a presentation-form DNS name, without dots. -/
def name_labels (name : String) : List String :=
  ((split_labels_aux name.toList []).filter (fun l => l ≠ [])).map
    (fun l => String.mk l)

/-- Modelled from the spec: hsk_dns_label_get(name, 0) — the first label of
a presentation-form name, without its trailing dot. -/
def hsk_dns_label_get_first (name : String) : String :=
  (name_labels name).headD ("")

/-- Modelled from the spec: hsk_dns_label_get(name, -1) — the last label. -/
def hsk_dns_label_get_last (name : String) : String :=
  (name_labels name).getLastD ("")

/-- Modelled from the spec: hsk_dns_label_count. -/
def hsk_dns_label_count (name : String) : Nat :=
  (name_labels name).length

/-- Modelled from the spec: hsk_dns_label_from(name, -1) — the name from its
last label onward, i.e. the TLD as an FQDN. -/
def hsk_dns_label_from_last (name : String) : String :=
  hsk_dns_label_get_last name ++ "."

/-! ### target_to_dns (src/resource.c lines 1989-2014) -/

/-- The first 16 bytes of an hsk_target_t struct: the type tag byte followed
by the first 15 bytes of the name array (a NUL-terminated char[256], zero
beyond the stored string). -/
def target_struct_bytes (t : hsk_target) : List Nat :=
  t.type :: (((t.name.toList.map Char.toNat) ++ List.replicate 15 0).take 15)

/-- src/resource.c target_to_dns (lines 1989-2014).  Faithful to the source:
for INET4/INET6 targets the C code passes `target` — the struct pointer
itself — to ip_to_b32, so the 16 bytes encoded are the struct's leading
bytes (type tag, then name bytes), not the stored address. -/
def target_to_dns (target : hsk_target) (name : String) : Option String :=
  if target.type = HSK_NAME ∨ target.type = HSK_GLUE then some target.name
  else if target.type = HSK_INET4 ∨ target.type = HSK_INET6 then
    let b32 := ip_to_b32 (target_struct_bytes target)
    let tld := hsk_dns_label_get_last name
    if tld.length = 0 then none
    else some ("_" ++ b32 ++ "." ++ tld ++ ".")
  else none

/-- The IPv4 address 192.0.2.1 followed by one concrete instantiation (zero
bytes) of the 12 out-of-bounds bytes that ip_to_b32 reads past a 4-byte
buffer. -/
def c3_input : List Nat := [192, 0, 2, 1] ++ List.replicate 12 0

/-- An INET4 target holding 1.2.3.4 with an empty (all-zero) name array. -/
def c4_target : hsk_target :=
  { type := HSK_INET4, name := "", inet4 := [1, 2, 3, 4],
    inet6 := List.replicate 16 0, onion := List.replicate 33 0 }

/-! ### DNS message model (dns.c / dns.h are not under src/) -/

/-- Modelled from the spec: the RDATA shapes the builders fill through the
external DNS codec.  URI and TXT data are kept as strings; the rrsig case
records the covered RRtype and the signing key (0 = ZSK, 1 = KSK), the
cryptographic fields being the external signer's concern. -/
inductive hsk_dns_rd where
  | a (addr : List Nat)
  | aaaa (addr : List Nat)
  | cname (target : String)
  | dname (target : String)
  | ns (ns : String)
  | mx (preference : Nat) (mx : String)
  | txt (data : String)
  | loc (version : Nat) (size : Nat) (horiz_pre : Nat) (vert_pre : Nat)
      (latitude : Nat) (longitude : Nat) (altitude : Nat)
  | ds (key_tag : Nat) (algorithm : Nat) (digest_type : Nat) (digest : List Nat)
  | sshfp (algorithm : Nat) (digest_type : Nat) (fingerprint : List Nat)
  | uri (priority : Nat) (weight : Nat) (data : String)
  | rp (mbox : String) (txt : String)
  | nsec (next_domain : String) (type_map : List Nat)
  | soa (ns : String) (mbox : String) (serial : Nat) (refresh : Nat)
      (retry : Nat) (expire : Nat) (minttl : Nat)
  | rrsig (type_covered : Nat) (key : Nat)
deriving DecidableEq

/-- Modelled from the spec: a resource record as the external codec stores
it: RRtype, owner name, TTL and RDATA. -/
structure hsk_dns_rr where
  type : Nat
  name : String
  ttl : Nat
  rd : hsk_dns_rd
deriving DecidableEq

/-- Modelled from the spec: a DNS message with its header flags, rcode and
the answer / authority / additional sections. -/
structure hsk_dns_msg where
  flags : Nat
  code : Nat
  an : List hsk_dns_rr
  ns : List hsk_dns_rr
  ar : List hsk_dns_rr
deriving DecidableEq

/-- Modelled from the spec: hsk_dns_msg_alloc — flags clear, rcode NOERROR,
all sections empty. -/
def hsk_dns_msg_alloc : hsk_dns_msg :=
  { flags := 0, code := 0, an := [], ns := [], ar := [] }

/-! ### DNSSEC signing (dnssec.c is not under src/) -/

/-- Modelled from the spec: the RRSIG appended by the signer over the RRset
of type `type_covered`; key 0 is the ZSK, key 1 the KSK. -/
def hsk_dnssec_rrsig (type_covered : Nat) (key : Nat) : hsk_dns_rr :=
  { type := HSK_DNS_RRSIG, name := ".", ttl := 0,
    rd := .rrsig type_covered key }

/-- Modelled from the spec: hsk_dnssec_sign_zsk(section, type) appends one
RRSIG covering `type` over the RRset of that type; when the section holds
no RR of the type there is no RRset and nothing is appended (spec
scenario 1: an empty answer receives no RRSIG). -/
def hsk_dnssec_sign_zsk (rrs : List hsk_dns_rr) (type : Nat) : List hsk_dns_rr :=
  if rrs.any (fun rr => rr.type == type) then rrs ++ [hsk_dnssec_rrsig type 0]
  else rrs

/-- Modelled from the spec: hsk_dnssec_sign_ksk, as hsk_dnssec_sign_zsk but
with the KSK. -/
def hsk_dnssec_sign_ksk (rrs : List hsk_dns_rr) (type : Nat) : List hsk_dns_rr :=
  if rrs.any (fun rr => rr.type == type) then rrs ++ [hsk_dnssec_rrsig type 1]
  else rrs

/-! ### Section builders (src/resource.c lines 517-1349) -/

/-- src/resource.c hsk_resource_to_a (lines 517-549), per record. -/
def hsk_resource_to_a_rr (name : String) (ttl : Nat) :
    hsk_record → Option hsk_dns_rr
  | .inet4 target =>
    some { type := HSK_DNS_A, name := name, ttl := ttl,
           rd := .a (target.inet4.take 4) }
  | _ => none

def hsk_resource_to_a (res : hsk_resource) (name : String) : List hsk_dns_rr :=
  res.records.filterMap (hsk_resource_to_a_rr name res.ttl)

/-- src/resource.c hsk_resource_to_aaaa (lines 551-583), per record. -/
def hsk_resource_to_aaaa_rr (name : String) (ttl : Nat) :
    hsk_record → Option hsk_dns_rr
  | .inet6 target =>
    some { type := HSK_DNS_AAAA, name := name, ttl := ttl,
           rd := .aaaa (target.inet6.take 16) }
  | _ => none

def hsk_resource_to_aaaa (res : hsk_resource) (name : String) : List hsk_dns_rr :=
  res.records.filterMap (hsk_resource_to_aaaa_rr name res.ttl)

/-- src/resource.c hsk_resource_to_cname (lines 585-624), per record:
CANONICAL records whose target is NAME or GLUE and resolves. -/
def hsk_resource_to_cname_rr (name : String) (ttl : Nat) :
    hsk_record → Option hsk_dns_rr
  | .canonical target =>
    if target.type = HSK_NAME ∨ target.type = HSK_GLUE then
      match target_to_dns target name with
      | some cname =>
        some { type := HSK_DNS_CNAME, name := name, ttl := ttl,
               rd := .cname cname }
      | none => none
    else none
  | _ => none

def hsk_resource_to_cname (res : hsk_resource) (name : String) : List hsk_dns_rr :=
  res.records.filterMap (hsk_resource_to_cname_rr name res.ttl)

/-- src/resource.c hsk_resource_to_dname (lines 626-665), per record. -/
def hsk_resource_to_dname_rr (name : String) (ttl : Nat) :
    hsk_record → Option hsk_dns_rr
  | .delegate target =>
    if target.type = HSK_NAME ∨ target.type = HSK_GLUE then
      match target_to_dns target name with
      | some dname =>
        some { type := HSK_DNS_DNAME, name := name, ttl := ttl,
               rd := .dname dname }
      | none => none
    else none
  | _ => none

def hsk_resource_to_dname (res : hsk_resource) (name : String) : List hsk_dns_rr :=
  res.records.filterMap (hsk_resource_to_dname_rr name res.ttl)

/-- The synthetic NS name of a SYNTH record (resource.c line 705). -/
def hsk_synth_ns_name (ipb : List Nat) : String :=
  "_" ++ ip_to_b32 ipb ++ "._synth."

/-- src/resource.c hsk_resource_to_ns (lines 667-727), per record: one NS RR
per NS/GLUE4/GLUE6/SYNTH4/SYNTH6 record.  For SYNTH4 the C code hands
ip_to_b32 the 4-byte inet4 array, from which (pointer-sized `family`) it
reads 16 bytes — the 12 out-of-bounds bytes are instantiated as zeros
here; no claim depends on the synthesized label's content. -/
def hsk_resource_to_ns_rr (name : String) (ttl : Nat) :
    hsk_record → Option hsk_dns_rr
  | .ns nsname _ =>
    some { type := HSK_DNS_NS, name := name, ttl := ttl, rd := .ns nsname }
  | .glue4 nsname _ =>
    some { type := HSK_DNS_NS, name := name, ttl := ttl, rd := .ns nsname }
  | .glue6 nsname _ =>
    some { type := HSK_DNS_NS, name := name, ttl := ttl, rd := .ns nsname }
  | .synth4 ip4 =>
    some { type := HSK_DNS_NS, name := name, ttl := ttl,
           rd := .ns (hsk_synth_ns_name (ip4.take 4 ++ List.replicate 12 0)) }
  | .synth6 ip6 =>
    some { type := HSK_DNS_NS, name := name, ttl := ttl,
           rd := .ns (hsk_synth_ns_name (ip6.take 16)) }
  | _ => none

def hsk_resource_to_ns (res : hsk_resource) (name : String) : List hsk_dns_rr :=
  res.records.filterMap (hsk_resource_to_ns_rr name res.ttl)

/-- src/resource.c hsk_resource_to_nsip (lines 729-778), per record: for NS
records with an INET4/INET6 target, an A/AAAA RR owned by the synthetic
pointer name. -/
def hsk_resource_to_nsip_rr (name : String) (ttl : Nat) :
    hsk_record → Option hsk_dns_rr
  | .ns _ target =>
    if target.type = HSK_INET4 ∨ target.type = HSK_INET6 then
      match target_to_dns target name with
      | some ptr =>
        if target.type = HSK_INET6 then
          some { type := HSK_DNS_AAAA, name := ptr, ttl := ttl,
                 rd := .aaaa (target.inet6.take 16) }
        else
          some { type := HSK_DNS_A, name := ptr, ttl := ttl,
                 rd := .a (target.inet4.take 4) }
      | none => none
    else none
  | _ => none

def hsk_resource_to_nsip (res : hsk_resource) (name : String) : List hsk_dns_rr :=
  res.records.filterMap (hsk_resource_to_nsip_rr name res.ttl)

/-- src/resource.c hsk_resource_to_mx (lines 780-822), per record: SERVICE
records with service "smtp." and protocol "tcp." (strcasecmp) whose
target resolves. -/
def hsk_resource_to_mx_rr (name : String) (ttl : Nat) :
    hsk_record → Option hsk_dns_rr
  | .service service protocol priority _ target _ =>
    if strcasecmp_eq service ("smtp.") && strcasecmp_eq protocol ("tcp.") then
      match target_to_dns target name with
      | some mx =>
        some { type := HSK_DNS_MX, name := name, ttl := ttl,
               rd := .mx priority mx }
      | none => none
    else none
  | _ => none

def hsk_resource_to_mx (res : hsk_resource) (name : String) : List hsk_dns_rr :=
  res.records.filterMap (hsk_resource_to_mx_rr name res.ttl)

/-- Modelled from the spec: resource.c line 830 calls hsk_resource_to_srvip,
whose definition is not under src/; by analogy with hsk_resource_to_nsip
it emits, for each SERVICE record matching (protocol, service) whose
target is INET4/INET6, an A/AAAA RR owned by the synthetic pointer name.
Only the additional section receives its output, which no claim
inspects. -/
def hsk_resource_to_srvip_rr (name : String) (protocol : String)
    (service : String) (ttl : Nat) : hsk_record → Option hsk_dns_rr
  | .service rservice rprotocol _ _ target _ =>
    if strcasecmp_eq protocol rprotocol && strcasecmp_eq service rservice then
      if target.type = HSK_INET4 ∨ target.type = HSK_INET6 then
        match target_to_dns target name with
        | some ptr =>
          if target.type = HSK_INET6 then
            some { type := HSK_DNS_AAAA, name := ptr, ttl := ttl,
                   rd := .aaaa (target.inet6.take 16) }
          else
            some { type := HSK_DNS_A, name := ptr, ttl := ttl,
                   rd := .a (target.inet4.take 4) }
        | none => none
      else none
    else none
  | _ => none

/-- src/resource.c hsk_resource_to_mxip (lines 824-831):
hsk_resource_to_srvip with protocol "tcp." and service "smtp.". -/
def hsk_resource_to_mxip (res : hsk_resource) (name : String) : List hsk_dns_rr :=
  res.records.filterMap (hsk_resource_to_srvip_rr name ("tcp.") ("smtp.") res.ttl)

/-- src/resource.c hsk_resource_to_txt (lines 883-927), per record. -/
def hsk_resource_to_txt_rr (name : String) (ttl : Nat) :
    hsk_record → Option hsk_dns_rr
  | .text text =>
    some { type := HSK_DNS_TXT, name := name, ttl := ttl, rd := .txt text }
  | _ => none

def hsk_resource_to_txt (res : hsk_resource) (name : String) : List hsk_dns_rr :=
  res.records.filterMap (hsk_resource_to_txt_rr name res.ttl)

/-- src/resource.c hsk_resource_to_loc (lines 929-967), per record. -/
def hsk_resource_to_loc_rr (name : String) (ttl : Nat) :
    hsk_record → Option hsk_dns_rr
  | .location version size horiz_pre vert_pre latitude longitude altitude =>
    some { type := HSK_DNS_LOC, name := name, ttl := ttl,
           rd := .loc version size horiz_pre vert_pre latitude longitude altitude }
  | _ => none

def hsk_resource_to_loc (res : hsk_resource) (name : String) : List hsk_dns_rr :=
  res.records.filterMap (hsk_resource_to_loc_rr name res.ttl)

/-- src/resource.c hsk_resource_to_ds (lines 969-1013), per record. -/
def hsk_resource_to_ds_rr (name : String) (ttl : Nat) :
    hsk_record → Option hsk_dns_rr
  | .ds key_tag algorithm digest_type digest =>
    some { type := HSK_DNS_DS, name := name, ttl := ttl,
           rd := .ds key_tag algorithm digest_type digest }
  | _ => none

def hsk_resource_to_ds (res : hsk_resource) (name : String) : List hsk_dns_rr :=
  res.records.filterMap (hsk_resource_to_ds_rr name res.ttl)

/-- src/resource.c hsk_resource_to_sshfp (lines 1015-1058), per record. -/
def hsk_resource_to_sshfp_rr (name : String) (ttl : Nat) :
    hsk_record → Option hsk_dns_rr
  | .ssh algorithm key_type fingerprint =>
    some { type := HSK_DNS_SSHFP, name := name, ttl := ttl,
           rd := .sshfp algorithm key_type fingerprint }
  | _ => none

def hsk_resource_to_sshfp (res : hsk_resource) (name : String) : List hsk_dns_rr :=
  res.records.filterMap (hsk_resource_to_sshfp_rr name res.ttl)

/-- The URL loop of hsk_resource_to_uri (resource.c lines 1067-1095), per
record. -/
def hsk_resource_to_uri_url_rr (name : String) (ttl : Nat) :
    hsk_record → Option hsk_dns_rr
  | .url text =>
    some { type := HSK_DNS_URI, name := name, ttl := ttl, rd := .uri 0 0 text }
  | _ => none

/-- The string built by the MAGNET loop of hsk_resource_to_uri (resource.c
line 1135): sprintf("magnet:?xt=urn:%s:%s", nid, nin) with nid the
lower-cased first label and nin hex-encoded. -/
def hsk_magnet_uri_string (nid : String) (nin : List Nat) : String :=
  "magnet:?xt=urn:" ++ hsk_to_lower (hsk_dns_label_get_first nid) ++ ":" ++
    hsk_hex_encode nin

/-- The MAGNET loop of hsk_resource_to_uri (resource.c lines 1097-1138), per
record: len = 16 + nid_len + nin_len * 2; a record is skipped when
len + 1 > 255 (the NUL included), otherwise a URI RR with the constructed
string is emitted. -/
def hsk_resource_to_uri_magnet_rr (name : String) (ttl : Nat) :
    hsk_record → Option hsk_dns_rr
  | .magnet nid nin =>
    let nid_len := (hsk_dns_label_get_first nid).length
    let len := 16 + nid_len + nin.length * 2
    if 255 < len + 1 then none
    else
      some { type := HSK_DNS_URI, name := name, ttl := ttl,
             rd := .uri 0 0 (hsk_magnet_uri_string nid nin) }
  | _ => none

def hsk_resource_to_uri_magnet (res : hsk_resource) (name : String) :
    List hsk_dns_rr :=
  res.records.filterMap (hsk_resource_to_uri_magnet_rr name res.ttl)

/-- The string built by the ADDR loop of hsk_resource_to_uri (resource.c
line 1193): "<currency>:<addr>", addr being the stored address for
ctype 0 or "0x" ++ hex(hash) for ctype 3. -/
def hsk_addr_uri_string (currency : String) (address : String) (ctype : Nat)
    (hash : List Nat) : String :=
  hsk_to_lower (hsk_dns_label_get_first currency) ++ ":" ++
    (if ctype = 0 then address else "0x" ++ hsk_hex_encode hash)

/-- The ADDR loop of hsk_resource_to_uri (resource.c lines 1140-1196), per
record. -/
def hsk_resource_to_uri_addr_rr (name : String) (ttl : Nat) :
    hsk_record → Option hsk_dns_rr
  | .addr currency address ctype hash =>
    if ctype ≠ 0 ∧ ctype ≠ 3 then none
    else
      let currency_len := (hsk_dns_label_get_first currency).length
      let addr_len := if ctype = 0 then address.length else 2 + hash.length * 2
      let len := currency_len + 1 + addr_len
      if 255 < len + 1 then none
      else
        some { type := HSK_DNS_URI, name := name, ttl := ttl,
               rd := .uri 0 0 (hsk_addr_uri_string currency address ctype hash) }
  | _ => none

/-- src/resource.c hsk_resource_to_uri (lines 1060-1199): the URL loop, then
the MAGNET loop, then the ADDR loop, pushed into the same section. -/
def hsk_resource_to_uri (res : hsk_resource) (name : String) : List hsk_dns_rr :=
  res.records.filterMap (hsk_resource_to_uri_url_rr name res.ttl) ++
    hsk_resource_to_uri_magnet res name ++
    res.records.filterMap (hsk_resource_to_uri_addr_rr name res.ttl)

/-- Modelled from the spec: hsk_dns_name_verify from dns.c — the mbox must
be a valid DNS name (labels at most 63 bytes, total length at most
255). -/
def hsk_dns_name_verify (name : String) : Bool :=
  decide (name.length ≤ 255) && (name_labels name).all (fun l => l.length ≤ 63)

/-- src/resource.c hsk_resource_to_rp (lines 1201-1243), per record: EMAIL
records whose text is at most 63 bytes and whose text ++ "." verifies. -/
def hsk_resource_to_rp_rr (name : String) (ttl : Nat) :
    hsk_record → Option hsk_dns_rr
  | .email text =>
    if 63 < text.length then none
    else
      let mbox := text ++ "."
      if hsk_dns_name_verify mbox = false then none
      else
        some { type := HSK_DNS_RP, name := name, ttl := ttl,
               rd := .rp mbox (".") }
  | _ => none

def hsk_resource_to_rp (res : hsk_resource) (name : String) : List hsk_dns_rr :=
  res.records.filterMap (hsk_resource_to_rp_rr name res.ttl)

/-- The A/AAAA pair emitted for one glue target (resource.c lines
1317-1345): an A RR when the inline IPv4 is non-zero, an AAAA RR when the
inline IPv6 is non-zero, both owned by the glue's stored FQDN. -/
def hsk_glue_addr_rrs (ttl : Nat) (target : hsk_target) : List hsk_dns_rr :=
  (if target.inet4.take 4 ≠ List.replicate 4 0 then
    [{ type := HSK_DNS_A, name := target.name, ttl := ttl,
       rd := .a (target.inet4.take 4) }]
   else []) ++
  (if target.inet6.take 16 ≠ List.replicate 16 0 then
    [{ type := HSK_DNS_AAAA, name := target.name, ttl := ttl,
       rd := .aaaa (target.inet6.take 16) }]
   else [])

/-- src/resource.c hsk_resource_to_glue (lines 1245-1349), per record: the
record type must match the parent rrtype (CANONICAL-CNAME, DELEGATE-DNAME,
NS-NS, SERVICE-SRV/MX with the smtp/tcp filter for MX) and the target kind
must be GLUE. -/
def hsk_resource_to_glue_rrs (ttl : Nat) (rrtype : Nat) :
    hsk_record → List hsk_dns_rr
  | .canonical target =>
    if rrtype = HSK_DNS_CNAME ∧ target.type = HSK_GLUE then
      hsk_glue_addr_rrs ttl target
    else []
  | .delegate target =>
    if rrtype = HSK_DNS_DNAME ∧ target.type = HSK_GLUE then
      hsk_glue_addr_rrs ttl target
    else []
  | .ns _ target =>
    if rrtype = HSK_DNS_NS ∧ target.type = HSK_GLUE then
      hsk_glue_addr_rrs ttl target
    else []
  | .service service protocol _ _ target _ =>
    if (rrtype = HSK_DNS_SRV ∨
        (rrtype = HSK_DNS_MX ∧
          (strcasecmp_eq service ("smtp.") && strcasecmp_eq protocol ("tcp.")) = true)) ∧
        target.type = HSK_GLUE then
      hsk_glue_addr_rrs ttl target
    else []
  | _ => []

def hsk_resource_to_glue (res : hsk_resource) (rrtype : Nat) : List hsk_dns_rr :=
  (res.records.map (hsk_resource_to_glue_rrs res.ttl rrtype)).flatten

/-! ### Root SOA / NSEC and the empty proof (src/resource.c lines 1351-1561) -/

/-- src/resource.c hsk_resource_root_to_soa (lines 1351-1387).  The wall
clock read (hsk_ymdh from utils.c, not under src/) is passed explicitly as
(year, month, day, hour); the three uint32 stores truncate mod 2^32 (for
every real UTC date the values are far below 2^32, where the C code's
double-arithmetic detour `year * 1e6` is exact as well). -/
def hsk_resource_root_to_soa (clock : Nat × Nat × Nat × Nat) : hsk_dns_rr :=
  let y := clock.1 * 1000000 % 2 ^ 32
  let m := clock.2.1 * 10000 % 2 ^ 32
  let d := clock.2.2.1 * 100 % 2 ^ 32
  let h := clock.2.2.2 % 2 ^ 32
  { type := HSK_DNS_SOA, name := ".", ttl := 86400,
    rd := .soa (".") (".") ((y + m + d + h) % 2 ^ 32) 1800 900 604800 86400 }

/-- The NSEC type bitmap constant hsk_type_map (resource.c lines 32-35):
NS SOA RRSIG NSEC DNSKEY. -/
def hsk_type_map : List Nat :=
  [0x00, 0x07, 0x22, 0x00, 0x00, 0x00, 0x00, 0x03, 0x80]

/-- src/resource.c hsk_resource_to_empty (lines 1491-1530): an NSEC RR with
next domain "." and the given type map (the dispatcher passes NULL,
i.e. an empty map), TTL 86400. -/
def hsk_resource_to_empty (name : String) (type_map : List Nat) : hsk_dns_rr :=
  { type := HSK_DNS_NSEC, name := name, ttl := 86400,
    rd := .nsec (".") type_map }

/-- src/resource.c hsk_resource_root_to_nsec (lines 1532-1561): an NSEC RR
for the root with the canonical hsk_type_map bitmap. -/
def hsk_resource_root_to_nsec : hsk_dns_rr :=
  { type := HSK_DNS_NSEC, name := ".", ttl := 86400,
    rd := .nsec (".") hsk_type_map }

/-! ### The dispatcher (src/resource.c lines 1563-1705) -/

/-- The authoritative qtype switch of hsk_resource_to_dns (lines 1613-1672),
producing the message before the AA / empty-answer tail runs. -/
def hsk_resource_to_dns_switch (rs : hsk_resource) (name : String)
    (type : Nat) : hsk_dns_msg :=
  if type = HSK_DNS_A then
    { hsk_dns_msg_alloc with
      an := hsk_dnssec_sign_zsk (hsk_resource_to_a rs name) HSK_DNS_A }
  else if type = HSK_DNS_AAAA then
    { hsk_dns_msg_alloc with
      an := hsk_dnssec_sign_zsk (hsk_resource_to_aaaa rs name) HSK_DNS_AAAA }
  else if type = HSK_DNS_CNAME then
    { hsk_dns_msg_alloc with
      an := hsk_dnssec_sign_zsk (hsk_resource_to_cname rs name) HSK_DNS_CNAME,
      ar := hsk_dnssec_sign_zsk
        (hsk_dnssec_sign_zsk (hsk_resource_to_glue rs HSK_DNS_CNAME) HSK_DNS_A)
        HSK_DNS_AAAA }
  else if type = HSK_DNS_DNAME then
    { hsk_dns_msg_alloc with
      an := hsk_dnssec_sign_zsk (hsk_resource_to_dname rs name) HSK_DNS_DNAME,
      ar := hsk_dnssec_sign_zsk
        (hsk_dnssec_sign_zsk (hsk_resource_to_glue rs HSK_DNS_DNAME) HSK_DNS_A)
        HSK_DNS_AAAA }
  else if type = HSK_DNS_NS then
    { hsk_dns_msg_alloc with
      ns := hsk_dnssec_sign_zsk (hsk_resource_to_ns rs name) HSK_DNS_NS,
      ar := hsk_resource_to_glue rs HSK_DNS_NS ++ hsk_resource_to_nsip rs name }
  else if type = HSK_DNS_MX then
    { hsk_dns_msg_alloc with
      an := hsk_dnssec_sign_zsk (hsk_resource_to_mx rs name) HSK_DNS_MX,
      ar := hsk_resource_to_mxip rs name ++ hsk_resource_to_glue rs HSK_DNS_MX }
  else if type = HSK_DNS_TXT then
    { hsk_dns_msg_alloc with
      an := hsk_dnssec_sign_zsk (hsk_resource_to_txt rs name) HSK_DNS_TXT }
  else if type = HSK_DNS_LOC then
    { hsk_dns_msg_alloc with
      an := hsk_dnssec_sign_zsk (hsk_resource_to_loc rs name) HSK_DNS_LOC }
  else if type = HSK_DNS_DS then
    { hsk_dns_msg_alloc with
      an := hsk_dnssec_sign_zsk (hsk_resource_to_ds rs name) HSK_DNS_DS }
  else if type = HSK_DNS_SSHFP then
    { hsk_dns_msg_alloc with
      an := hsk_dnssec_sign_zsk (hsk_resource_to_sshfp rs name) HSK_DNS_SSHFP }
  else if type = HSK_DNS_URI then
    { hsk_dns_msg_alloc with
      an := hsk_dnssec_sign_zsk (hsk_resource_to_uri rs name) HSK_DNS_URI }
  else if type = HSK_DNS_RP then
    { hsk_dns_msg_alloc with
      an := hsk_dnssec_sign_zsk (hsk_resource_to_rp rs name) HSK_DNS_RP }
  else hsk_dns_msg_alloc

/-- The AA check and empty-answer tail of hsk_resource_to_dns (lines
1674-1702): set AA when the answer is non-empty; when answer and
authority are both empty, fall back to CNAME, NS referral data or the
signed empty proof. -/
def hsk_resource_to_dns_tail2 (rs : hsk_resource) (name : String)
    (clock : Nat × Nat × Nat × Nat) (m1 : hsk_dns_msg) : hsk_dns_msg :=
  if m1.an.length = 0 ∧ m1.ns.length = 0 then
    if hsk_resource_has rs HSK_CANONICAL then
      { m1 with
        flags := m1.flags ||| HSK_DNS_AA,
        an := hsk_dnssec_sign_zsk (m1.an ++ hsk_resource_to_cname rs name)
          HSK_DNS_CNAME,
        ar := hsk_dnssec_sign_zsk
          (hsk_dnssec_sign_zsk (m1.ar ++ hsk_resource_to_glue rs HSK_DNS_CNAME)
            HSK_DNS_A) HSK_DNS_AAAA }
    else if hsk_resource_has rs HSK_NS then
      let ns1 := m1.ns ++ hsk_resource_to_ns rs name ++ hsk_resource_to_ds rs name
      { m1 with
        ns := if hsk_resource_has rs HSK_DS then hsk_dnssec_sign_zsk ns1 HSK_DNS_DS
              else hsk_dnssec_sign_zsk ns1 HSK_DNS_NS,
        ar := m1.ar ++ hsk_resource_to_nsip rs name ++
          hsk_resource_to_glue rs HSK_DNS_NS }
    else
      { m1 with
        ns := hsk_dnssec_sign_zsk
          (hsk_dnssec_sign_zsk (m1.ns ++ [hsk_resource_to_empty name []])
            HSK_DNS_NSEC ++ [hsk_resource_root_to_soa clock]) HSK_DNS_SOA }
  else m1

/-- The AA check of hsk_resource_to_dns (line 1674), then the empty-answer
tail: the C code first sets AA when the answer is non-empty and then runs
the tail on the resulting message. -/
def hsk_resource_to_dns_tail (rs : hsk_resource) (name : String)
    (clock : Nat × Nat × Nat × Nat) (m : hsk_dns_msg) : hsk_dns_msg :=
  hsk_resource_to_dns_tail2 rs name clock
    (if 0 < m.an.length then { m with flags := m.flags ||| HSK_DNS_AA } else m)

/-- The referral path of hsk_resource_to_dns (lines 1585-1611), entered when
the query name has more than one label. -/
def hsk_resource_to_dns_referral (rs : hsk_resource) (name : String)
    (tld : String) (clock : Nat × Nat × Nat × Nat) : hsk_dns_msg :=
  if hsk_resource_has_ns rs then
    let ns1 := hsk_resource_to_ns rs tld ++ hsk_resource_to_ds rs tld
    { hsk_dns_msg_alloc with
      ns := if hsk_resource_has rs HSK_DS then hsk_dnssec_sign_zsk ns1 HSK_DNS_DS
            else hsk_dnssec_sign_zsk ns1 HSK_DNS_NS,
      ar := hsk_resource_to_nsip rs tld ++ hsk_resource_to_glue rs HSK_DNS_NS }
  else if hsk_resource_has rs HSK_DELEGATE then
    { hsk_dns_msg_alloc with
      an := hsk_dnssec_sign_zsk (hsk_resource_to_dname rs name) HSK_DNS_DNAME,
      ar := hsk_dnssec_sign_zsk
        (hsk_dnssec_sign_zsk (hsk_resource_to_glue rs HSK_DNS_DNAME) HSK_DNS_A)
        HSK_DNS_AAAA }
  else
    { hsk_dns_msg_alloc with
      ns := hsk_dnssec_sign_zsk
        (hsk_dnssec_sign_zsk [hsk_resource_to_empty tld []] HSK_DNS_NSEC ++
          [hsk_resource_root_to_soa clock]) HSK_DNS_SOA }

/-- src/resource.c hsk_resource_to_dns (lines 1563-1705).  The clock feeds
the synthesized root SOA; a name with zero labels returns NULL. -/
def hsk_resource_to_dns (rs : hsk_resource) (name : String) (type : Nat)
    (clock : Nat × Nat × Nat × Nat) : Option hsk_dns_msg :=
  let labels := hsk_dns_label_count name
  if labels = 0 then none
  else
    let tld := hsk_dns_label_from_last name
    if 1 < labels then some (hsk_resource_to_dns_referral rs name tld clock)
    else
      some (hsk_resource_to_dns_tail rs name clock
        (hsk_resource_to_dns_switch rs name type))

/-! ### Negative responders (src/resource.c lines 1776-1825) -/

/-- src/resource.c hsk_resource_to_nx (lines 1776-1801): NXDOMAIN, AA set,
authority holding two root NSECs, their RRSIG, the root SOA and its
RRSIG. -/
def hsk_resource_to_nx (clock : Nat × Nat × Nat × Nat) : hsk_dns_msg :=
  let ns1 := hsk_dnssec_sign_zsk [hsk_resource_root_to_nsec, hsk_resource_root_to_nsec]
    HSK_DNS_NSEC
  let ns2 := hsk_dnssec_sign_zsk (ns1 ++ [hsk_resource_root_to_soa clock])
    HSK_DNS_SOA
  { flags := 0 ||| HSK_DNS_AA, code := HSK_DNS_NXDOMAIN,
    an := [], ns := ns2, ar := [] }

/-- src/resource.c hsk_resource_to_servfail (lines 1803-1813). -/
def hsk_resource_to_servfail : hsk_dns_msg :=
  { hsk_dns_msg_alloc with code := HSK_DNS_SERVFAIL }

/-- src/resource.c hsk_resource_to_notimp (lines 1815-1825). -/
def hsk_resource_to_notimp : hsk_dns_msg :=
  { hsk_dns_msg_alloc with code := HSK_DNS_NOTIMP }

/-! ### Accessors and claim-side specifications -/

def opt_msg_an (o : Option hsk_dns_msg) : List hsk_dns_rr :=
  match o with
  | none => []
  | some m => m.an

def opt_msg_ns (o : Option hsk_dns_msg) : List hsk_dns_rr :=
  match o with
  | none => []
  | some m => m.ns

/-- Whether the AA header flag of the (optional) message is set. -/
def opt_msg_aa (o : Option hsk_dns_msg) : Bool :=
  match o with
  | none => false
  | some m => (m.flags &&& HSK_DNS_AA) != 0

/-- The amended MX specification (claim C8): one MX RR per SERVICE record
whose service is "smtp." and protocol is "tcp." ASCII case-insensitively
AND whose target resolves through target_to_dns, with preference equal to
the record's priority and exchange equal to the resolved host. -/
def hsk_mx_rr_spec (name : String) (ttl : Nat) : hsk_record → Option hsk_dns_rr
  | .service service protocol priority _ target _ =>
    if hsk_to_lower service = "smtp." ∧ hsk_to_lower protocol = "tcp." then
      match target_to_dns target name with
      | some host =>
        some { type := HSK_DNS_MX, name := name, ttl := ttl,
               rd := .mx priority host }
      | none => none
    else none
  | _ => none

/-- The claim-side magnet URI specification (claim C7): a URI RR for exactly
those MAGNET records whose constructed string fits in 255 bytes. -/
def hsk_magnet_rr_spec (name : String) (ttl : Nat) : hsk_record → Option hsk_dns_rr
  | .magnet nid nin =>
    if (hsk_magnet_uri_string nid nin).length ≤ 255 then
      some { type := HSK_DNS_URI, name := name, ttl := ttl,
             rd := .uri 0 0 (hsk_magnet_uri_string nid nin) }
    else none
  | _ => none

/-- Well-formedness of a MAGNET record as stored by the C structs: the nid
field is a char[33] label (first label at most 32 characters) and nin is
a 64-byte buffer. -/
def hsk_magnet_wf : hsk_record → Bool
  | .magnet nid nin =>
    decide ((hsk_dns_label_get_first nid).length ≤ 32) && decide (nin.length ≤ 64)
  | _ => true

/-- The number of SERVICE records passing the smtp/tcp strcasecmp filter. -/
def smtp_tcp_service_count (res : hsk_resource) : Nat :=
  (res.records.filter (fun c =>
    match c with
    | .service service protocol _ _ _ _ =>
      strcasecmp_eq service ("smtp.") && strcasecmp_eq protocol ("tcp.")
    | _ => false)).length

/-! ### Concrete inputs for the dispatcher claims -/

/-- A resource holding a single NS record (target ns1.example.). -/
def c5_res : hsk_resource :=
  { version := 0, ttl := HSK_DEFAULT_TTL,
    records := [.ns ("ns1.example.") hsk_target_zero] }

/-- A NAME target pointing at x. -/
def c6_target_name : hsk_target :=
  { type := HSK_NAME, name := "x.", inet4 := List.replicate 4 0,
    inet6 := List.replicate 16 0, onion := List.replicate 33 0 }

/-- A resource holding a single DELEGATE record with a NAME target: the
DNAME referral path answers from it. -/
def c6_res : hsk_resource :=
  { version := 0, ttl := HSK_DEFAULT_TTL, records := [.delegate c6_target_name] }

/-- An INET4 target holding 192.0.2.1. -/
def c6_target_inet4 : hsk_target :=
  { type := HSK_INET4, name := "", inet4 := [192, 0, 2, 1],
    inet6 := List.replicate 16 0, onion := List.replicate 33 0 }

/-- A resource holding a single INET4 record (192.0.2.1). -/
def c6_res_w : hsk_resource :=
  { version := 0, ttl := HSK_DEFAULT_TTL, records := [.inet4 c6_target_inet4] }

/-- A resource holding one MAGNET record: nid label btih., nin 20 bytes of
0x01 (spec scenario 6). -/
def c7_res : hsk_resource :=
  { version := 0, ttl := HSK_DEFAULT_TTL,
    records := [.magnet ("btih.") (List.replicate 20 1)] }

/-- An ONION target (33 zero bytes). -/
def c8_target_onion : hsk_target :=
  { type := HSK_ONION, name := "", inet4 := List.replicate 4 0,
    inet6 := List.replicate 16 0, onion := List.replicate 33 0 }

/-- A resource holding one SERVICE record that passes the smtp/tcp filter
but whose target kind (ONION) cannot be resolved by target_to_dns. -/
def c8_res : hsk_resource :=
  { version := 0, ttl := HSK_DEFAULT_TTL,
    records := [.service ("smtp.") ("tcp.") 10 0 c8_target_onion 25] }

/-! ### Theorems -/

/-- C1: the claim says a failing per-type reader makes hsk_resource_decode
reject the whole resource.  The code stores hsk_record_read's reader result
in `result` without ever testing it, so on the two-byte input
(version 0, type DS, empty body) the DS reader fails yet decode succeeds,
returning a resource holding one zero-filled DS record. -/
theorem C1_record_read_failure_accepted :
    hsk_resource_decode c1_input =
      some { version := 0, ttl := HSK_DEFAULT_TTL, records := [.ds 0 0 0 []] } := by
  rfl

set_option maxRecDepth 100000 in
/-- C2: the claim says decode rejects inputs with more than 255 records and
never writes outside the 255 slots.  The decode loop has no cap check: on
an input carrying 256 well-formed empty TEXT records it succeeds with
record_count 256 (in C this writes res->records[255], one past the last
valid slot records[254] of the 255-pointer array). -/
theorem C2_no_record_cap :
    (hsk_resource_decode c2_input).map (fun r => r.records.length) = some 256 := by
  rfl


/-- C3: the claim says b32_to_ip(ip_to_b32(a)) reports family A and recovers
the IPv4 address a.  ip_to_b32 classifies the family with `sizeof(ip)` —
the size of the pointer argument (8), never 4 — so the IPv4-mapped branch
is dead: for 192.0.2.1 (with the 12 out-of-bounds bytes read past the
buffer instantiated as zeros) the round trip reports family AAAA over the
raw 16 bytes instead of family A with the 4-byte address. -/
theorem C3_round_trip_reports_wrong_family :
    b32_to_ip (ip_to_b32 c3_input) = some (c3_input, HSK_DNS_AAAA) := by
  decide

/-- C4: the claim says the emitted host is "_<b32>.<tld>." with <b32>
encoding the target's stored address bytes.  target_to_dns does succeed
on an INET4 target and a query name with a label, but it hands ip_to_b32
the target struct pointer, so the label encodes the struct's leading 16
bytes (type tag 1, then name bytes), not the stored address 1.2.3.4. -/
theorem C4_target_to_dns_encodes_struct_bytes :
    (target_to_dns c4_target ("alice.")).isSome = true ∧
    target_to_dns c4_target ("alice.") =
      some ("_" ++ ip_to_b32 (target_struct_bytes c4_target) ++ ".alice.") ∧
    target_to_dns c4_target ("alice.") ≠
      some ("_" ++ ip_to_b32_spec 4 [1, 2, 3, 4] ++ ".alice.") := by
  refine ⟨by decide, by decide, by decide⟩

theorem string_length_append (a b : String) : (a ++ b).length = a.length + b.length := by
  cases a with
  | mk la =>
    cases b with
    | mk lb =>
      show (String.mk (la ++ lb)).length = (String.mk la).length + (String.mk lb).length
      simp [String.length]

theorem hsk_to_lower_length (s : String) : (hsk_to_lower s).length = s.length := by
  cases s with
  | mk l => simp [hsk_to_lower, String.length, String.toList]

theorem hsk_hex_encode_length (bs : List Nat) :
    (hsk_hex_encode bs).length = 2 * bs.length := by
  induction bs with
  | nil => rfl
  | cons b rest ih =>
    simp only [hsk_hex_encode, String.length, List.map_cons, List.flatten_cons] at *
    simp only [List.length_append, List.length_cons, List.length_nil] at *
    omega

theorem hsk_magnet_uri_string_length (nid : String) (nin : List Nat) :
    (hsk_magnet_uri_string nid nin).length =
      16 + (hsk_dns_label_get_first nid).length + 2 * nin.length := by
  have h15 : ("magnet:?xt=urn:" : String).length = 15 := by decide
  have h1 : (":" : String).length = 1 := by decide
  simp only [hsk_magnet_uri_string, string_length_append, h15, h1,
    hsk_to_lower_length, hsk_hex_encode_length]
  omega

theorem magnet_rr_code_eq_spec (name : String) (ttl : Nat) (c : hsk_record)
    (h : hsk_magnet_wf c = true) :
    hsk_resource_to_uri_magnet_rr name ttl c = hsk_magnet_rr_spec name ttl c := by
  cases c <;>
    simp only [hsk_resource_to_uri_magnet_rr, hsk_magnet_rr_spec]
  case magnet nid nin =>
    simp only [hsk_magnet_wf, Bool.and_eq_true, decide_eq_true_eq] at h
    rw [hsk_magnet_uri_string_length]
    rw [if_neg (by omega), if_pos (by omega)]

/-- C7: with nid stored as a char[33] label and nin as at most 64 bytes, the
constructed magnet string is at most 176 bytes, so the claim's "fits in
255 bytes" condition and the code's `len + 1 > 255` skip test agree on
every representable record: the MAGNET loop emits a URI RR with RDATA
"magnet:?xt=urn:<nid>:<hex(nin)>" for exactly those records whose string
fits (which is all of them), and every constructed string fits. -/
theorem C7_magnet_uri_fit (rs : hsk_resource) (name : String)
    (hwf : ∀ c ∈ rs.records, hsk_magnet_wf c = true) :
    hsk_resource_to_uri_magnet rs name =
      rs.records.filterMap (hsk_magnet_rr_spec name rs.ttl) ∧
    ∀ nid nin, hsk_record.magnet nid nin ∈ rs.records →
      (hsk_magnet_uri_string nid nin).length ≤ 255 := by
  constructor
  · unfold hsk_resource_to_uri_magnet
    exact List.filterMap_congr (fun c hc => magnet_rr_code_eq_spec name rs.ttl c (hwf c hc))
  · intro nid nin hmem
    have h := hwf _ hmem
    simp only [hsk_magnet_wf, Bool.and_eq_true, decide_eq_true_eq] at h
    rw [hsk_magnet_uri_string_length]
    omega

/-- Witness for C7 at the concrete resource of spec scenario 6. -/
theorem C7_magnet_uri_fit_witness :
    hsk_resource_to_uri_magnet c7_res ("alice.") =
      c7_res.records.filterMap (hsk_magnet_rr_spec ("alice.") c7_res.ttl) :=
  (C7_magnet_uri_fit c7_res ("alice.") (by decide)).1

/-- C8 counterexample: this SERVICE record's service and protocol pass the
case-insensitive smtp./tcp. filter (the count is 1), yet the MX builder
emits no MX RR, because its target (an ONION address) does not resolve
through target_to_dns; the claim as stated requires one MX RR for every
record passing the smtp/tcp filter. -/
theorem C8_smtp_tcp_without_mx :
    smtp_tcp_service_count c8_res = 1 ∧
    hsk_resource_to_mx c8_res ("alice.") = [] := by
  refine ⟨by decide, by decide⟩

/-- C8 amended: the MX builder emits one MX RR — preference the record's
priority, exchange the resolved target host — for exactly those SERVICE
records whose service is "smtp." and protocol is "tcp." ASCII
case-insensitively AND whose target resolves through target_to_dns; all
other SERVICE records (including smtp/tcp ones with unresolvable
targets) produce no MX RR. -/
theorem C8_mx_filter_amended (rs : hsk_resource) (name : String) :
    hsk_resource_to_mx rs name =
      rs.records.filterMap (hsk_mx_rr_spec name rs.ttl) := by
  unfold hsk_resource_to_mx
  refine List.filterMap_congr (fun c _ => ?_)
  have hsmtp : hsk_to_lower ("smtp.") = "smtp." := by decide
  have htcp : hsk_to_lower ("tcp.") = "tcp." := by decide
  cases c <;>
    simp [hsk_resource_to_mx_rr, hsk_mx_rr_spec, strcasecmp_eq, hsmtp, htcp,
      Bool.and_eq_true, beq_iff_eq]

/-- C9: hsk_resource_to_nx returns rcode NXDOMAIN with AA set, empty answer
and additional sections, and an authority of exactly two root NSEC RRs,
their ZSK RRSIG over NSEC, the root SOA, and a ZSK RRSIG over SOA;
hsk_resource_to_servfail returns rcode SERVFAIL and
hsk_resource_to_notimp rcode NOTIMP, both with no records in any
section. -/
theorem C9_negative_responders (clock : Nat × Nat × Nat × Nat) :
    (hsk_resource_to_nx clock).code = HSK_DNS_NXDOMAIN ∧
    ((hsk_resource_to_nx clock).flags &&& HSK_DNS_AA) ≠ 0 ∧
    (hsk_resource_to_nx clock).an = [] ∧
    (hsk_resource_to_nx clock).ar = [] ∧
    (hsk_resource_to_nx clock).ns =
      [hsk_resource_root_to_nsec, hsk_resource_root_to_nsec,
       hsk_dnssec_rrsig HSK_DNS_NSEC 0, hsk_resource_root_to_soa clock,
       hsk_dnssec_rrsig HSK_DNS_SOA 0] ∧
    hsk_resource_to_servfail =
      { flags := 0, code := HSK_DNS_SERVFAIL, an := [], ns := [], ar := [] } ∧
    hsk_resource_to_notimp =
      { flags := 0, code := HSK_DNS_NOTIMP, an := [], ns := [], ar := [] } := by
  exact ⟨rfl, (by decide : ((0 ||| HSK_DNS_AA) &&& HSK_DNS_AA) ≠ 0), rfl, rfl,
    rfl, rfl, rfl⟩

/-- C10: the synthesized root SOA (used for the root SOA answer, the empty
proofs of the dispatcher, and nx) has owner ".", ns ".", mbox ".",
TTL 86400, serial the decimal concatenation YYYYMMDDHH of the UTC clock,
refresh 1800, retry 900, expire 604800 and minttl 86400; the bound keeps
the uint32 serial arithmetic exact (every real UTC date satisfies it). -/
theorem C10_root_soa (year month day hour : Nat)
    (h : year * 1000000 + month * 10000 + day * 100 + hour < 2 ^ 32) :
    hsk_resource_root_to_soa (year, month, day, hour) =
      { type := HSK_DNS_SOA, name := ".", ttl := 86400,
        rd := .soa (".") (".")
          (year * 1000000 + month * 10000 + day * 100 + hour)
          1800 900 604800 86400 } := by
  simp only [hsk_resource_root_to_soa, hsk_dns_rr.mk.injEq, hsk_dns_rd.soa.injEq,
    true_and, and_true]
  have hw : (2 : Nat) ^ 32 = 4294967296 := by norm_num
  rw [hw] at h ⊢
  omega

/-- Witness for C10 at the concrete UTC clock 2026-10-11 05h. -/
theorem C10_root_soa_witness :
    2026 * 1000000 + 10 * 10000 + 11 * 100 + 5 < 2 ^ 32 ∧
    hsk_resource_root_to_soa (2026, 10, 11, 5) =
      { type := HSK_DNS_SOA, name := ".", ttl := 86400,
        rd := .soa (".") (".") (2026 * 1000000 + 10 * 10000 + 11 * 100 + 5)
          1800 900 604800 86400 } :=
  ⟨by norm_num, C10_root_soa 2026 10 11 5 (by norm_num)⟩

theorem mem_sign_zsk {rr : hsk_dns_rr} {l : List hsk_dns_rr} (t : Nat)
    (h : rr ∈ l) : rr ∈ hsk_dnssec_sign_zsk l t := by
  unfold hsk_dnssec_sign_zsk
  split
  · exact List.mem_append_left _ h
  · exact h

theorem sign_zsk_rrsig_mem {l : List hsk_dns_rr} {t : Nat}
    (h : ∃ rr ∈ l, rr.type = t) :
    hsk_dnssec_rrsig t 0 ∈ hsk_dnssec_sign_zsk l t := by
  unfold hsk_dnssec_sign_zsk
  rw [if_pos]
  · exact List.mem_append_right _ (List.mem_singleton.mpr rfl)
  · obtain ⟨rr, hm, ht⟩ := h
    exact List.any_eq_true.mpr ⟨rr, hm, by simp [ht]⟩

theorem to_ns_rr_type {name : String} {ttl : Nat} {c : hsk_record}
    {rr : hsk_dns_rr} (h : hsk_resource_to_ns_rr name ttl c = some rr) :
    rr.type = HSK_DNS_NS := by
  cases c <;> simp [hsk_resource_to_ns_rr] at h <;> simp [← h]

theorem to_ns_mem_of_has_ns {rs : hsk_resource} (name : String)
    (h : hsk_resource_has_ns rs = true) :
    ∃ rr ∈ hsk_resource_to_ns rs name, rr.type = HSK_DNS_NS := by
  unfold hsk_resource_has_ns at h
  obtain ⟨c, hc, hlike⟩ := List.any_eq_true.mp h
  have hsome : (hsk_resource_to_ns_rr name rs.ttl c).isSome := by
    cases c <;> simp_all [hsk_record_is_ns_like, hsk_resource_to_ns_rr]
  obtain ⟨rr, hrr⟩ := Option.isSome_iff_exists.mp hsome
  exact ⟨rr, List.mem_filterMap.mpr ⟨c, hc, hrr⟩, to_ns_rr_type hrr⟩

theorem tag_eq_ds {c : hsk_record} (h : c.tag = HSK_DS) :
    ∃ key_tag algorithm digest_type digest,
      c = hsk_record.ds key_tag algorithm digest_type digest := by
  cases c <;>
    simp_all [hsk_record.tag, HSK_INET4, HSK_INET6, HSK_CANONICAL, HSK_DELEGATE,
      HSK_NS, HSK_GLUE4, HSK_GLUE6, HSK_SYNTH4, HSK_SYNTH6, HSK_SERVICE,
      HSK_TEXT, HSK_EMAIL, HSK_URL, HSK_MAGNET, HSK_ADDR, HSK_DS, HSK_LOCATION,
      HSK_SSH]

theorem to_ds_mem_of_has_ds {rs : hsk_resource} (name : String)
    (h : hsk_resource_has rs HSK_DS = true) :
    ∃ rr ∈ hsk_resource_to_ds rs name, rr.type = HSK_DNS_DS := by
  unfold hsk_resource_has hsk_resource_get at h
  rcases hfind : rs.records.find? (fun rec => rec.tag = HSK_DS) with _ | c
  · rw [hfind] at h
    simp at h
  · have hc : c ∈ rs.records := List.mem_of_find?_eq_some hfind
    have htag : c.tag = HSK_DS := by
      have := List.find?_some hfind
      simpa using this
    obtain ⟨k, a, d, dg, rfl⟩ := tag_eq_ds htag
    exact ⟨_, List.mem_filterMap.mpr ⟨_, hc, rfl⟩, rfl⟩

theorem referral_an_eq (rs : hsk_resource) (name tld : String)
    (clock : Nat × Nat × Nat × Nat) (h2 : hsk_resource_has_ns rs = true) :
    (hsk_resource_to_dns_referral rs name tld clock).an = [] := by
  unfold hsk_resource_to_dns_referral
  rw [if_pos h2]
  rfl

theorem referral_ns_eq (rs : hsk_resource) (name tld : String)
    (clock : Nat × Nat × Nat × Nat) (h2 : hsk_resource_has_ns rs = true) :
    (hsk_resource_to_dns_referral rs name tld clock).ns =
      if hsk_resource_has rs HSK_DS then
        hsk_dnssec_sign_zsk
          (hsk_resource_to_ns rs tld ++ hsk_resource_to_ds rs tld) HSK_DNS_DS
      else
        hsk_dnssec_sign_zsk
          (hsk_resource_to_ns rs tld ++ hsk_resource_to_ds rs tld) HSK_DNS_NS := by
  unfold hsk_resource_to_dns_referral
  rw [if_pos h2]

/-- C5: for a query name with more than one label against a resource holding
an NS-like record, the dispatcher returns a referral: empty answer,
non-empty authority containing NS RRs, and the authority carries a ZSK
RRSIG over DS when the resource has a DS record and over NS otherwise. -/
theorem C5_referral_shape (rs : hsk_resource) (name : String) (type : Nat)
    (clock : Nat × Nat × Nat × Nat)
    (h1 : 1 < hsk_dns_label_count name) (h2 : hsk_resource_has_ns rs = true) :
    ∃ msg, hsk_resource_to_dns rs name type clock = some msg ∧
      msg.an = [] ∧ msg.ns ≠ [] ∧
      (∃ rr ∈ msg.ns, rr.type = HSK_DNS_NS) ∧
      (if hsk_resource_has rs HSK_DS = true then
        hsk_dnssec_rrsig HSK_DNS_DS 0 ∈ msg.ns
       else hsk_dnssec_rrsig HSK_DNS_NS 0 ∈ msg.ns) := by
  have h0 : ¬ hsk_dns_label_count name = 0 := by omega
  obtain ⟨rr0, hm0, ht0⟩ := to_ns_mem_of_has_ns (hsk_dns_label_from_last name) h2
  have hm1 : rr0 ∈ hsk_resource_to_ns rs (hsk_dns_label_from_last name) ++
      hsk_resource_to_ds rs (hsk_dns_label_from_last name) :=
    List.mem_append_left _ hm0
  refine ⟨hsk_resource_to_dns_referral rs name (hsk_dns_label_from_last name) clock,
    ?_, referral_an_eq rs name _ clock h2, ?_, ?_, ?_⟩
  · unfold hsk_resource_to_dns
    simp [h0, h1]
  · rw [referral_ns_eq rs name _ clock h2]
    by_cases hds : hsk_resource_has rs HSK_DS = true
    · rw [if_pos hds]
      exact List.ne_nil_of_mem (mem_sign_zsk _ hm1)
    · rw [if_neg (by simpa using hds)]
      exact List.ne_nil_of_mem (mem_sign_zsk _ hm1)
  · rw [referral_ns_eq rs name _ clock h2]
    by_cases hds : hsk_resource_has rs HSK_DS = true
    · rw [if_pos hds]
      exact ⟨rr0, mem_sign_zsk _ hm1, ht0⟩
    · rw [if_neg (by simpa using hds)]
      exact ⟨rr0, mem_sign_zsk _ hm1, ht0⟩
  · rw [referral_ns_eq rs name _ clock h2]
    by_cases hds : hsk_resource_has rs HSK_DS = true
    · rw [if_pos hds, if_pos hds]
      obtain ⟨rr, hm, ht⟩ := to_ds_mem_of_has_ds (hsk_dns_label_from_last name) hds
      exact sign_zsk_rrsig_mem ⟨rr, List.mem_append_right _ hm, ht⟩
    · rw [if_neg hds, if_neg (by simpa using hds)]
      exact sign_zsk_rrsig_mem ⟨rr0, hm1, ht0⟩

/-- Witness for C5 at a concrete NS resource and the name sub.alice. -/
theorem C5_referral_shape_witness :
    1 < hsk_dns_label_count ("sub.alice.") ∧ hsk_resource_has_ns c5_res = true ∧
    ∃ msg, hsk_resource_to_dns c5_res ("sub.alice.") HSK_DNS_NS (2026, 10, 11, 5) =
        some msg ∧
      msg.an = [] ∧ msg.ns ≠ [] ∧
      (∃ rr ∈ msg.ns, rr.type = HSK_DNS_NS) ∧
      (if hsk_resource_has c5_res HSK_DS = true then
        hsk_dnssec_rrsig HSK_DNS_DS 0 ∈ msg.ns
       else hsk_dnssec_rrsig HSK_DNS_NS 0 ∈ msg.ns) :=
  ⟨by decide, by decide,
    C5_referral_shape c5_res ("sub.alice.") HSK_DNS_NS (2026, 10, 11, 5)
      (by decide) (by decide)⟩


theorem switch_flags_eq_zero (rs : hsk_resource) (name : String) (type : Nat) :
    (hsk_resource_to_dns_switch rs name type).flags = 0 := by
  unfold hsk_resource_to_dns_switch
  by_cases h0 : type = HSK_DNS_A
  · rw [if_pos h0]
    try rfl
  rw [if_neg h0]
  by_cases h1 : type = HSK_DNS_AAAA
  · rw [if_pos h1]
    try rfl
  rw [if_neg h1]
  by_cases h2 : type = HSK_DNS_CNAME
  · rw [if_pos h2]
    try rfl
  rw [if_neg h2]
  by_cases h3 : type = HSK_DNS_DNAME
  · rw [if_pos h3]
    try rfl
  rw [if_neg h3]
  by_cases h4 : type = HSK_DNS_NS
  · rw [if_pos h4]
    try rfl
  rw [if_neg h4]
  by_cases h5 : type = HSK_DNS_MX
  · rw [if_pos h5]
    try rfl
  rw [if_neg h5]
  by_cases h6 : type = HSK_DNS_TXT
  · rw [if_pos h6]
    try rfl
  rw [if_neg h6]
  by_cases h7 : type = HSK_DNS_LOC
  · rw [if_pos h7]
    try rfl
  rw [if_neg h7]
  by_cases h8 : type = HSK_DNS_DS
  · rw [if_pos h8]
    try rfl
  rw [if_neg h8]
  by_cases h9 : type = HSK_DNS_SSHFP
  · rw [if_pos h9]
    try rfl
  rw [if_neg h9]
  by_cases h10 : type = HSK_DNS_URI
  · rw [if_pos h10]
    try rfl
  rw [if_neg h10]
  by_cases h11 : type = HSK_DNS_RP
  · rw [if_pos h11]
    try rfl
  rw [if_neg h11]
  try rfl

theorem referral_flags_eq_zero (rs : hsk_resource) (name tld : String)
    (clock : Nat × Nat × Nat × Nat) :
    (hsk_resource_to_dns_referral rs name tld clock).flags = 0 := by
  unfold hsk_resource_to_dns_referral
  by_cases h1 : hsk_resource_has_ns rs = true
  · rw [if_pos h1]
    try rfl
  rw [if_neg h1]
  by_cases h2 : hsk_resource_has rs HSK_DELEGATE = true
  · rw [if_pos h2]
    try rfl
  rw [if_neg h2]
  try rfl

theorem or_and_aa_ne_zero (x : Nat) :
    ((x ||| HSK_DNS_AA) &&& HSK_DNS_AA) ≠ 0 := by
  intro h0
  have h1024 : Nat.testBit HSK_DNS_AA 10 = true := by decide
  have hb : ((x ||| HSK_DNS_AA) &&& HSK_DNS_AA).testBit 10 = true := by
    simp [Nat.testBit_and, Nat.testBit_or, h1024]
  rw [h0] at hb
  simp at hb

theorem tail_aa_of_an_ne_nil (rs : hsk_resource) (name : String)
    (clock : Nat × Nat × Nat × Nat) (m : hsk_dns_msg)
    (h : (hsk_resource_to_dns_tail rs name clock m).an ≠ []) :
    ((hsk_resource_to_dns_tail rs name clock m).flags &&& HSK_DNS_AA) ≠ 0 := by
  unfold hsk_resource_to_dns_tail at h ⊢
  by_cases h0 : 0 < m.an.length
  · rw [if_pos h0] at h ⊢
    have hguard : ¬ (({ m with flags := m.flags ||| HSK_DNS_AA } : hsk_dns_msg).an.length = 0 ∧
        ({ m with flags := m.flags ||| HSK_DNS_AA } : hsk_dns_msg).ns.length = 0) := by
      intro hg
      have hlen : m.an.length = 0 := hg.1
      omega
    unfold hsk_resource_to_dns_tail2
    rw [if_neg hguard]
    exact or_and_aa_ne_zero m.flags
  · rw [if_neg h0] at h ⊢
    unfold hsk_resource_to_dns_tail2 at h ⊢
    have hanil : m.an = [] := List.length_eq_zero.mp (by omega)
    by_cases hg : m.an.length = 0 ∧ m.ns.length = 0
    · rw [if_pos hg] at h ⊢
      by_cases hcan : hsk_resource_has rs HSK_CANONICAL = true
      · rw [if_pos hcan]
        exact or_and_aa_ne_zero m.flags
      · rw [if_neg hcan] at h ⊢
        by_cases hnsr : hsk_resource_has rs HSK_NS = true
        · rw [if_pos hnsr] at h
          exact absurd hanil h
        · rw [if_neg hnsr] at h
          exact absurd hanil h
    · rw [if_neg hg] at h
      exact absurd hanil h

theorem tail_aa_clear (rs : hsk_resource) (name : String)
    (clock : Nat × Nat × Nat × Nat) (m : hsk_dns_msg) (hf : m.flags = 0)
    (han : (hsk_resource_to_dns_tail rs name clock m).an = [])
    (hns : ∃ rr ∈ (hsk_resource_to_dns_tail rs name clock m).ns,
      rr.type = HSK_DNS_NS) :
    ((hsk_resource_to_dns_tail rs name clock m).flags &&& HSK_DNS_AA) = 0 := by
  unfold hsk_resource_to_dns_tail at han hns ⊢
  by_cases h0 : 0 < m.an.length
  · rw [if_pos h0] at han hns ⊢
    have hguard : ¬ (({ m with flags := m.flags ||| HSK_DNS_AA } : hsk_dns_msg).an.length = 0 ∧
        ({ m with flags := m.flags ||| HSK_DNS_AA } : hsk_dns_msg).ns.length = 0) := by
      intro hg
      have hlen : m.an.length = 0 := hg.1
      omega
    unfold hsk_resource_to_dns_tail2 at han
    rw [if_neg hguard] at han
    have hnil : m.an = [] := han
    rw [hnil] at h0
    simp at h0
  · rw [if_neg h0] at han hns ⊢
    unfold hsk_resource_to_dns_tail2 at han hns ⊢
    by_cases hg : m.an.length = 0 ∧ m.ns.length = 0
    · rw [if_pos hg] at han hns ⊢
      by_cases hcan : hsk_resource_has rs HSK_CANONICAL = true
      · rw [if_pos hcan] at hns
        obtain ⟨rr, hm, _⟩ := hns
        have hmns : rr ∈ m.ns := hm
        rw [List.length_eq_zero.mp hg.2] at hmns
        exact absurd hmns (List.not_mem_nil rr)
      · rw [if_neg hcan] at hns ⊢
        by_cases hnsr : hsk_resource_has rs HSK_NS = true
        · rw [if_pos hnsr]
          show (m.flags &&& HSK_DNS_AA) = 0
          rw [hf]
          decide
        · rw [if_neg hnsr]
          show (m.flags &&& HSK_DNS_AA) = 0
          rw [hf]
          decide
    · rw [if_neg hg]
      show (m.flags &&& HSK_DNS_AA) = 0
      rw [hf]
      decide

theorem to_dns_eq_some_tail (rs : hsk_resource) (name : String) (type : Nat)
    (clock : Nat × Nat × Nat × Nat) (h1 : hsk_dns_label_count name = 1) :
    hsk_resource_to_dns rs name type clock =
      some (hsk_resource_to_dns_tail rs name clock
        (hsk_resource_to_dns_switch rs name type)) := by
  unfold hsk_resource_to_dns
  simp [h1]

theorem to_dns_eq_some_referral (rs : hsk_resource) (name : String) (type : Nat)
    (clock : Nat × Nat × Nat × Nat) (h1 : 1 < hsk_dns_label_count name) :
    hsk_resource_to_dns rs name type clock =
      some (hsk_resource_to_dns_referral rs name
        (hsk_dns_label_from_last name) clock) := by
  unfold hsk_resource_to_dns
  have h0 : ¬ hsk_dns_label_count name = 0 := by omega
  simp [h0, h1]

/-- C6 counterexample: the DNAME referral path (query sub.alice. against a
resource whose only record is a DELEGATE with a NAME target) returns a
message whose answer section is non-empty (DNAME plus RRSIG) while the AA
flag is clear, contradicting the claim that a non-empty answer always has
AA set. -/
theorem C6_dname_referral_answer_without_aa :
    opt_msg_an (hsk_resource_to_dns c6_res ("sub.alice.") HSK_DNS_A
      (2026, 10, 11, 5)) ≠ [] ∧
    opt_msg_aa (hsk_resource_to_dns c6_res ("sub.alice.") HSK_DNS_A
      (2026, 10, 11, 5)) = false := by
  refine ⟨by decide, by decide⟩

/-- C6 amended: AA is set whenever the answer section is non-empty and the
query has exactly one label (the authoritative path, including its CNAME
tail); in the referral path (more than one label) a DNAME answer can be
returned with AA clear.  An empty answer whose authority contains NS
records always has AA clear. -/
theorem C6_aa_invariant_amended (rs : hsk_resource) (name : String)
    (type : Nat) (clock : Nat × Nat × Nat × Nat) :
    (hsk_dns_label_count name = 1 →
      opt_msg_an (hsk_resource_to_dns rs name type clock) ≠ [] →
      opt_msg_aa (hsk_resource_to_dns rs name type clock) = true) ∧
    (opt_msg_an (hsk_resource_to_dns rs name type clock) = [] →
      (∃ rr ∈ opt_msg_ns (hsk_resource_to_dns rs name type clock),
        rr.type = HSK_DNS_NS) →
      opt_msg_aa (hsk_resource_to_dns rs name type clock) = false) := by
  constructor
  · intro h1 h2
    rw [to_dns_eq_some_tail rs name type clock h1] at h2 ⊢
    simp only [opt_msg_an] at h2
    simp only [opt_msg_aa, bne_iff_ne, ne_eq, decide_eq_true_eq]
    exact tail_aa_of_an_ne_nil rs name clock _ h2
  · intro h2 h3
    by_cases hc0 : hsk_dns_label_count name = 0
    · unfold hsk_resource_to_dns
      simp [hc0, opt_msg_aa]
    · by_cases hc2 : 1 < hsk_dns_label_count name
      · rw [to_dns_eq_some_referral rs name type clock hc2]
        simp only [opt_msg_aa]
        rw [referral_flags_eq_zero rs name _ clock]
        decide
      · have hc1 : hsk_dns_label_count name = 1 := by omega
        rw [to_dns_eq_some_tail rs name type clock hc1] at h2 h3 ⊢
        simp only [opt_msg_an] at h2
        simp only [opt_msg_ns] at h3
        simp only [opt_msg_aa]
        rw [tail_aa_clear rs name clock _ (switch_flags_eq_zero rs name type) h2 h3]
        decide

/-- Witness for C6 at an authoritative A answer (one INET4 record, query
alice. for type A): the answer is non-empty and AA is set. -/
theorem C6_aa_invariant_amended_witness :
    hsk_dns_label_count ("alice.") = 1 ∧
    opt_msg_an (hsk_resource_to_dns c6_res_w ("alice.") HSK_DNS_A
      (2026, 10, 11, 5)) ≠ [] ∧
    opt_msg_aa (hsk_resource_to_dns c6_res_w ("alice.") HSK_DNS_A
      (2026, 10, 11, 5)) = true :=
  ⟨by decide, by decide,
    (C6_aa_invariant_amended c6_res_w ("alice.") HSK_DNS_A (2026, 10, 11, 5)).1
      (by decide) (by decide)⟩
